import Mathlib

/-!
Verification of the hot-reload core of the `sage` repository
(`crates/sage-hot-lib`), shallowly embedded in Lean 4.

The embedding models:
* `crc32fast::hash` (bitwise CRC-32/ISO-HDLC, as used by `hash_file`);
* the filesystem as an association list from paths to file data;
* `LibReloader` (`new`, `update`, `reload`, `get_symbol`, the `Drop` impl,
  and the `signal_change` closure of the watch thread) from
  `src/lib_reloader.rs`;
* the `BlockReload` clone/drop counting protocol and
  `send_about_to_reload_event_and_wait_for_blocks` from
  `src/lib_reload_events.rs`;
* the update-thread loop generated by `generate_lib_loader_items` and the
  `was_updated`/version accessors from `macro/src/hot_module/code_gen.rs`.

Platform-conditional compilation (`cfg(target_os)`) is represented by
passing the platform prefix/extension pair explicitly; the source has
exactly the instantiations `("lib", "so")` (linux) and `("", "dll")`
(windows).  Thread interleaving is represented by explicit state passing:
the fields the Rust code shares through `Arc` (`changed`, `lib_file_hash`)
live in the `LibReloader` record and are threaded by hand.
-/

/-! ## CRC32 (crc32fast::hash) -/

/-- One shift step of CRC-32/ISO-HDLC with reflected polynomial
`0xEDB88320`. -/
def crc32Bit (c : Nat) : Nat :=
  if c % 2 = 1 then (c / 2) ^^^ 0xEDB88320 else c / 2

/-- Process one input byte of the CRC. -/
def crc32Byte (c b : Nat) : Nat :=
  crc32Bit (crc32Bit (crc32Bit (crc32Bit
    (crc32Bit (crc32Bit (crc32Bit (crc32Bit (c ^^^ b % 256))))))))

/-- The function `crc32fast::hash`: initial value `0xFFFFFFFF`, bytewise update, final
xor with `0xFFFFFFFF`.  The hash of the empty byte string is `0`. -/
def crc32 (bs : List Nat) : Nat :=
  (bs.foldl crc32Byte 0xFFFFFFFF) ^^^ 0xFFFFFFFF

/-! ## String helpers

`str::replace` and `Path::with_extension` are re-implemented over
`List Char` so that every use kernel-reduces.  `str::replace` replaces all
non-overlapping occurrences left to right; every call site in the source
passes a non-empty literal pattern, so the empty-pattern corner of the Rust
semantics (insertion at every boundary) is not modelled. -/

/-- Worker for `replaceAll`, structurally recursive on a fuel argument so
that every application kernel-reduces.  Each step consumes at least one
character of the input, so fuel equal to the input length is enough and
the `0` branch is never reached from `replaceAll`. -/
def replaceAllAux (pat rep : List Char) : Nat → List Char → List Char
  | _, [] => []
  | 0, l => l
  | fuel + 1, c :: rest =>
    if pat.isPrefixOf (c :: rest) ∧ pat ≠ [] then
      rep ++ replaceAllAux pat rep fuel (rest.drop (pat.length - 1))
    else
      c :: replaceAllAux pat rep fuel rest

/-- Replace all non-overlapping occurrences of `pat` in `s` by `rep`,
scanning left to right (`str::replace` for non-empty `pat`). -/
def replaceAll (pat rep s : List Char) : List Char :=
  replaceAllAux pat rep s.length s

/-- Rust `str::replace` on Strings. -/
def strReplace (s pat rep : String) : String :=
  String.mk (replaceAll pat.toList rep.toList s.toList)

/-- Strip the extension (the part after the last `.`, unless that dot is
the leading character) from a file name, as `Path` does. -/
def stripExt (fname : List Char) : List Char :=
  let rev := fname.reverse
  match rev.dropWhile (fun c => c ≠ '.') with
  | [] => fname
  | [_] => fname
  | _ :: rest => rest.reverse

/-- Rust `Path::with_extension ext` (for non-empty `ext`): replace or add the
extension of the final path component. -/
def withExtension (path ext : String) : String :=
  let rev := path.toList.reverse
  let fnameRev := rev.takeWhile (fun c => c ≠ '/')
  let dirRev := rev.dropWhile (fun c => c ≠ '/')
  String.mk (dirRev.reverse ++ stripExt fnameRev.reverse ++ ('.' :: ext.toList))

/-- Rust `Path::join` for the relative file names produced here. -/
def pathJoin (dir fname : String) : String := dir ++ "/" ++ fname

/-! ## Filesystem model

A file's bytes determine whether it can be opened as a dynamic library and
which symbols it exports, so file data carries, besides the bytes, the
symbol table `lib` (`some syms` iff `libloading::Library::new` would
succeed on these bytes).  `fs::copy` duplicates the data, hence also the
loadability and symbols of the copy. -/

/-- Contents of one file: raw bytes plus, when the bytes form a loadable
dynamic library, its exported symbol names. -/
structure FileData where
  bytes : List Nat
  lib : Option (List (List Nat))
deriving DecidableEq, Repr

/-- The filesystem: an association list from paths to file data; the first
binding of a path is the current one. -/
abbrev FS := List (String × FileData)

/-- Read a file's data, `none` when the path does not exist. -/
def FS.read (fs : FS) (p : String) : Option FileData :=
  (fs.find? (fun e => e.1 = p)).map (fun e => e.2)

/-- Rust `Path::exists`. -/
def FS.pathExists (fs : FS) (p : String) : Bool :=
  (fs.read p).isSome

/-- Create or overwrite a file. -/
def FS.write (fs : FS) (p : String) (d : FileData) : FS :=
  (p, d) :: fs.filter (fun e => e.1 ≠ p)

/-- Rust `fs::remove_file` (the callers ignore its result). -/
def FS.removeFile (fs : FS) (p : String) : FS :=
  fs.filter (fun e => e.1 ≠ p)

/-! ## Errors and library loading -/

/-- Modelled from the spec: the error enumeration of `error.rs` (the module
is declared in `lib.rs` but its source is not in the snapshot).  Spec S7
lists the kinds `NotFound`, `CopyError`, `LoadError`, `SymbolNotFound`,
`LibraryNotLoaded`, `LockContention`; `lib_reloader.rs` itself constructs
`LibraryNotLoaded` and converts I/O and loader failures via `?`. -/
inductive HotReloaderError where
  | notFound
  | copyError
  | loadError
  | symbolNotFound
  | libraryNotLoaded
  | lockContention
deriving DecidableEq, Repr

/-- Rust `fs::copy src dst`: fails when `src` is unreadable, otherwise
duplicates its data at `dst`. -/
def FS.copy (fs : FS) (src dst : String) : Except HotReloaderError FS :=
  match fs.read src with
  | none => .error .copyError
  | some d => .ok (fs.write dst d)

/-- The function `load_library` (`libloading::Library::new`): fails when the file is
absent or its bytes are not a loadable dynamic library; otherwise yields
the library handle, modelled by its exported symbol table. -/
def load_library (fs : FS) (lib_file : String) :
    Except HotReloaderError (List (List Nat)) :=
  match fs.read lib_file with
  | none => .error .loadError
  | some d =>
    match d.lib with
    | some syms => .ok syms
    | none => .error .loadError

/-- Symbol lookup, `libloading::Library::get`: look a symbol name up in the handle. -/
def libGet (syms : List (List Nat)) (name : List Nat) :
    Except HotReloaderError (List Nat) :=
  if name ∈ syms then .ok name else .error .symbolNotFound

/-- The function `hash_file`: read the file and CRC32-hash its contents; `0`
(`u32::default()`) when the file cannot be read. -/
def hash_file (fs : FS) (f : String) : Nat :=
  match fs.read f with
  | some d => crc32 d.bytes
  | none => 0

/-! ## Paths (`watched_and_loaded_library_paths`) -/

/-- The function `watched_and_loaded_library_paths`.  Here `pfx`/`ext` are the
platform-conditional prefix and extension (`("lib", "so")` on linux,
`("", "dll")` on windows); `pid` is `std::process::id()`.  Note the
source prepends the platform prefix to `lib_name` before substituting
`{lib_name}` into the template. -/
def watched_and_loaded_library_paths (pfx ext : String)
    (lib_dir lib_name : String) (load_counter : Nat)
    (loaded_lib_name_template : Option String) (pid : Nat) :
    String × String :=
  let lib_name := pfx ++ lib_name
  let watched_lib_file := withExtension (pathJoin lib_dir lib_name) ext
  let loaded_lib_filename :=
    match loaded_lib_name_template with
    | some t =>
      strReplace
        (strReplace (strReplace t "{lib_name}" lib_name)
          "{load_counter}" (toString load_counter))
        "{pid}" (toString pid)
    | none => lib_name ++ "-hot-" ++ toString load_counter
  let loaded_lib_file := withExtension (pathJoin lib_dir loaded_lib_filename) ext
  (watched_lib_file, loaded_lib_file)

/-! ## LibReloader -/

/-- The `LibReloader` record.  The handle `lib` is the loaded library's
symbol table (`None` until the first successful load); `changed` and
`lib_file_hash` are the fields shared with the watch thread through
`Arc<AtomicBool>` / `Arc<AtomicU32>`.  The file-change subscriber list
lives with the watcher model (`signal_change`). -/
structure LibReloader where
  load_counter : Nat
  lib_dir : String
  lib_name : String
  changed : Bool
  lib : Option (List (List Nat))
  watched_lib_file : String
  loaded_lib_file : String
  lib_file_hash : Nat
  loaded_lib_name_template : Option String
deriving DecidableEq, Repr

/-- Constructor `LibReloader::new`, after directory resolution
(`find_file_or_dir_in_parent_directories` walks ancestor directories of
the CWD; no claim depends on it, so `lib_dir` here is the already-resolved
directory).  If the watched file exists it is copied to the loaded path,
hashed, and loaded; otherwise the hash is `0` and no handle is held.
The watch-thread spawn has no effect on the record. -/
def LibReloader.new (pfx ext : String) (pid : Nat) (fs : FS)
    (lib_dir lib_name : String) (loaded_lib_name_template : Option String) :
    Except HotReloaderError (FS × LibReloader) :=
  let load_counter := 0
  let (watched_lib_file, loaded_lib_file) :=
    watched_and_loaded_library_paths pfx ext lib_dir lib_name load_counter
      loaded_lib_name_template pid
  let mk := fun (lib : Option (List (List Nat))) (lib_file_hash : Nat) =>
    ({ load_counter, lib_dir, lib_name, changed := false, lib,
       watched_lib_file, loaded_lib_file, lib_file_hash,
       loaded_lib_name_template } : LibReloader)
  if fs.pathExists watched_lib_file then
    match fs.copy watched_lib_file loaded_lib_file with
    | .error e => .error e
    | .ok fs1 =>
      let hash := hash_file fs1 loaded_lib_file
      match load_library fs1 loaded_lib_file with
      | .error e => .error e
      | .ok syms => .ok (fs1, mk (some syms) hash)
  else
    .ok (fs, mk none 0)

/-- The method `LibReloader::reload`.  Mirrors the `&mut self` mutation order of the
source: the old handle is taken and closed first (its backing file deleted
best-effort), so partial updates survive an error return — on a copy
failure the incremented `load_counter` persists, on a load failure the
stored hash persists, and in every error case no handle is held.  The
return carries the final state plus the error of the `?` early exit, if
any.  `Library::close` errors are not modelled (the model closes
infallibly). -/
def LibReloader.reload (pfx ext : String) (pid : Nat) (fs : FS)
    (r : LibReloader) : FS × LibReloader × Option HotReloaderError :=
  -- `if let Some(lib) = lib.take() { lib.close()?; remove loaded file }`
  let (fs, r) :=
    match r.lib with
    | some _ =>
      let fs := if fs.pathExists r.loaded_lib_file then
          fs.removeFile r.loaded_lib_file
        else fs
      (fs, { r with lib := none })
    | none => (fs, r)
  if fs.pathExists r.watched_lib_file then
    let load_counter := r.load_counter + 1
    let (_, loaded_lib_file) :=
      watched_and_loaded_library_paths pfx ext r.lib_dir r.lib_name
        load_counter r.loaded_lib_name_template pid
    match fs.copy r.watched_lib_file loaded_lib_file with
    | .error e => (fs, { r with load_counter }, some e)
    | .ok fs1 =>
      let hash := hash_file fs1 loaded_lib_file
      let r1 := { r with load_counter, lib_file_hash := hash }
      match load_library fs1 loaded_lib_file with
      | .error e => (fs1, r1, some e)
      | .ok syms => (fs1, { r1 with lib := some syms, loaded_lib_file }, none)
  else
    (fs, r, none)

/-- The method `LibReloader::update`: result `Ok(false)` when no change is pending; else
clear the pending flag, run `reload`, propagate its error, `Ok(true)` on
success. -/
def LibReloader.update (pfx ext : String) (pid : Nat) (fs : FS)
    (r : LibReloader) : FS × LibReloader × Except HotReloaderError Bool :=
  if !r.changed then
    (fs, r, .ok false)
  else
    let r := { r with changed := false }
    match LibReloader.reload pfx ext pid fs r with
    | (fs1, r1, some e) => (fs1, r1, .error e)
    | (fs1, r1, none) => (fs1, r1, .ok true)

/-- The method `LibReloader::get_symbol`: error `LibraryNotLoaded` when no handle is held,
otherwise delegate the lookup to the handle. -/
def LibReloader.get_symbol (r : LibReloader) (name : List Nat) :
    Except HotReloaderError (List Nat) :=
  match r.lib with
  | none => .error .libraryNotLoaded
  | some syms => libGet syms name

/-! ## Watch thread: the `signal_change` closure -/

/-- The `signal_change` closure of `LibReloader::watch`.  `subs` is the
file-change subscriber list, each entry the queue of unit signals that
subscriber has received.  Returns (closure result, new pending flag, new
queues): suppressed when the recomputed hash of the watched file equals
the stored hash or a change is already pending; an accepted change sets
the pending flag and sends one `()` to every subscriber. -/
def signal_change (fs : FS) (lib_file : String) (lib_file_hash : Nat)
    (changed : Bool) (subs : List (List Unit)) :
    Bool × Bool × List (List Unit) :=
  if hash_file fs lib_file = lib_file_hash ∨ changed then
    (false, changed, subs)
  else
    (true, true, subs.map (fun q => q ++ [()]))

/-! ## Teardown (`impl Drop for LibReloader`) -/

/-- Observable teardown actions. -/
inductive TeardownEvent where
  | removeLoadedFile
  | closeHandle
deriving DecidableEq, Repr

/-- The teardown sequence of a `LibReloader` per Rust drop glue: the
`Drop::drop` body runs first and removes the loaded-copy file when it
exists; only afterwards are the fields dropped in declaration order, and
dropping the `lib : Option<Library>` field is what closes the handle. -/
def dropReloader (fs : FS) (r : LibReloader) : List TeardownEvent :=
  (if fs.pathExists r.loaded_lib_file then [.removeLoadedFile] else [])
    ++ (match r.lib with | some _ => [.closeHandle] | none => [])

/-! ## BlockReload token protocol (`lib_reload_events.rs`)

`BlockReload` wraps `Arc<(Mutex<usize>, Condvar)>`: `Clone::clone`
increments the shared count, `Drop::drop` decrements it and signals the
condition variable.  The model is a small-step system over the shared
count paired with the (ghost) number of live tokens; an operation needs a
live token to act on. -/

/-- Shared pending count plus the number of live `BlockReload` tokens. -/
structure TokState where
  count : Nat
  live : Nat
deriving DecidableEq, Repr

/-- Operations on tokens of one about-to-reload cycle. -/
inductive TokOp where
  | clone
  | drop
deriving DecidableEq, Repr

/-- One step: `clone` increments the shared count (`Clone for
BlockReload`), `drop` decrements it and signals the condvar (`Drop for
BlockReload`).  Either needs at least one live token. -/
def tokStep (s : TokState) : TokOp → Option TokState
  | .clone => if s.live = 0 then none else some ⟨s.count + 1, s.live + 1⟩
  | .drop => if s.live = 0 then none else some ⟨s.count - 1, s.live - 1⟩

/-- Run a list of token operations. -/
def runTokOps (s : TokState) : List TokOp → Option TokState
  | [] => some s
  | op :: ops =>
    match tokStep s op with
    | none => none
    | some s1 => runTokOps s1 ops

/-- The seed state made by `send_about_to_reload_event_and_wait_for_blocks`:
`Mutex::new(1)` with the broadcaster's own `block` token live. -/
def seedTokState : TokState := ⟨1, 1⟩

/-- The operations `send_about_to_reload_event_and_wait_for_blocks`
performs before waiting: one clone per subscriber delivery
(`tx.send(evt.clone())`), then the drop of the broadcaster's own event
(releasing the seed hold when `notify` returns). -/
def broadcastOps (deliveries : Nat) : List TokOp :=
  List.replicate deliveries .clone ++ [.drop]

/-- The `Condvar::wait_while` predicate: the broadcaster keeps waiting
while the count is positive, so the call returns exactly when the count
is `0`. -/
def waitReturns (s : TokState) : Prop := s.count = 0

/-! ## The generated update loop (`hot_module` macro, `code_gen.rs`) -/

/-- The `VERSION` / `WAS_UPDATED` statics generated per hot module. -/
structure HotModuleState where
  version : Nat
  was_updated : Bool
deriving DecidableEq, Repr

/-- Observable actions of one pass of the generated update-thread loop, in
program order. -/
inductive CycleEvent where
  | aboutToReloadWait
  | versionIncremented
  | updateFlagSet
  | reloadedSent
deriving DecidableEq, Repr

/-- One pass of the generated update-thread loop body after `change_rx`
yields a signal: broadcast about-to-reload and wait for blocks, acquire
the write lock (retried until it succeeds), run
`lib_loader.update().expect(..)` — a reload error panics the update
thread, modelled as `none` — then increment `VERSION`, store `true` into
`WAS_UPDATED`, and send the reloaded event. -/
def updateLoopCycle (pfx ext : String) (pid : Nat) (fs : FS)
    (ms : HotModuleState) (r : LibReloader) :
    Option (FS × LibReloader × HotModuleState × List CycleEvent) :=
  match LibReloader.update pfx ext pid fs r with
  | (_, _, .error _) => none
  | (fs1, r1, .ok _) =>
    some (fs1, r1, ⟨ms.version + 1, true⟩,
      [.aboutToReloadWait, .versionIncremented, .updateFlagSet,
       .reloadedSent])

/-- Iterate `n` reload cycles of the update thread.  Each cycle is preceded by an
accepted file change: the watcher sets the pending flag (`changed`) and
sends the unit signal the loop blocks on. -/
def runCycles (pfx ext : String) (pid : Nat) :
    Nat → FS → HotModuleState → LibReloader →
    Option (FS × HotModuleState × LibReloader)
  | 0, fs, ms, r => some (fs, ms, r)
  | n + 1, fs, ms, r =>
    match updateLoopCycle pfx ext pid fs ms { r with changed := true } with
    | none => none
    | some (fs1, r1, ms1, _) => runCycles pfx ext pid n fs1 ms1 r1

/-- The generated `was_updated` accessor:
`WAS_UPDATED.swap(false, AcqRel)` — return the flag and reset it. -/
def lib_was_updated (ms : HotModuleState) : Bool × HotModuleState :=
  (ms.was_updated, { ms with was_updated := false })

/-! ## Concrete fixtures used by witnesses and counterexamples -/

/-- A loadable library file exporting one symbol. -/
def sampleLib : FileData := ⟨[1, 2, 3], some [[100]]⟩

/-- A file whose bytes are not a loadable dynamic library. -/
def badLib : FileData := ⟨[9], none⟩

/-- A filesystem whose watched artifact exists but cannot be loaded. -/
def fsBad : FS := [("target/debug/libfoo.so", badLib)]

/-- A freshly constructed reloader over an absent artifact (linux paths,
default template). -/
def r0 : LibReloader :=
  { load_counter := 0, lib_dir := "target/debug", lib_name := "foo",
    changed := false, lib := none,
    watched_lib_file := "target/debug/libfoo.so",
    loaded_lib_file := "target/debug/libfoo-hot-0.so",
    lib_file_hash := 0, loaded_lib_name_template := none }

/-- Same reloader with a change pending. -/
def r0c : LibReloader := { r0 with changed := true }

/-- Same reloader holding an open handle. -/
def rLib : LibReloader := { r0 with lib := some [[100]] }

/-- A filesystem holding only the loaded private copy (the watched
artifact was deleted). -/
def fsLoadedOnly : FS := [("target/debug/libfoo-hot-0.so", sampleLib)]

/-! ## Helper lemmas -/

/-- Structure eta for the `lib := none` record update. -/
theorem LibReloader.withLibNone_eq (r : LibReloader) (h : r.lib = none) :
    ({ r with lib := none } : LibReloader) = r := by
  rw [← h]

/-- Reloading never touches the pending-change flag. -/
theorem reload_changed (pfx ext : String) (pid : Nat) (fs : FS) (r : LibReloader) :
    ((LibReloader.reload pfx ext pid fs r).2.1).changed = r.changed := by
  unfold LibReloader.reload
  rcases hl : r.lib with _ | syms <;> dsimp only <;>
    (repeat' split) <;> simp

/-- A reload that returns an error leaves no library handle: the old
handle was already taken and closed, and the new one was never stored. -/
theorem reload_error_no_lib (pfx ext : String) (pid : Nat) (fs : FS) (r : LibReloader)
    (fs1 : FS) (r1 : LibReloader) (e : HotReloaderError)
    (h : LibReloader.reload pfx ext pid fs r = (fs1, r1, some e)) : r1.lib = none := by
  unfold LibReloader.reload at h
  rcases hl : r.lib with _ | syms <;> rw [hl] at h <;> dsimp only at h <;>
    (repeat' split at h) <;> simp_all <;> (obtain ⟨-, h2, -⟩ := h) <;> subst h2 <;> rfl

/-- Removing one file cannot make another path exist. -/
theorem pathExists_removeFile_false (fs : FS) (p q : String)
    (h : fs.pathExists q = false) : (fs.removeFile p).pathExists q = false := by
  unfold FS.pathExists FS.read FS.removeFile at *
  simp only [Option.isSome_map'] at h ⊢
  simp only [Bool.eq_false_iff, Ne, List.find?_isSome] at h ⊢
  intro hcon
  obtain ⟨x, hm, hp⟩ := hcon
  exact h ⟨x, List.mem_of_mem_filter hm, hp⟩

/-- The token-counter invariant is preserved by every valid operation
sequence: the shared count always equals the number of live tokens. -/
theorem tok_invariant (ops : List TokOp) :
    ∀ s s1 : TokState, s.count = s.live → runTokOps s ops = some s1 →
      s1.count = s1.live := by
  induction ops with
  | nil =>
    intro s s1 h he
    simp only [runTokOps] at he
    cases he
    exact h
  | cons op ops ih =>
    intro s s1 h he
    simp only [runTokOps] at he
    cases htok : tokStep s op with
    | none =>
      rw [htok] at he
      exact absurd he (by simp)
    | some s2 =>
      rw [htok] at he
      have h2 : s2.count = s2.live := by
        cases op <;> simp only [tokStep] at htok <;> split at htok <;>
          simp only [reduceCtorEq, Option.some.injEq] at htok <;>
          rw [← htok] <;> dsimp <;> omega
      exact ih s2 s1 h2 he

/-- Cloning a token `n` times adds `n` to both the count and the number
of live tokens. -/
theorem replicate_clones (n : Nat) :
    ∀ c l : Nat, l ≠ 0 →
      runTokOps ⟨c, l⟩ (List.replicate n .clone) = some ⟨c + n, l + n⟩ := by
  induction n with
  | zero => intro c l h; simp [runTokOps]
  | succ n ih =>
    intro c l h
    simp only [List.replicate, runTokOps, tokStep, if_neg h]
    rw [ih (c + 1) (l + 1) (by omega)]
    simp only [Option.some.injEq, TokState.mk.injEq]
    omega

/-! ## Claim theorems -/

/-- C1: For every `LibReloader` state, `update()` returns `Ok(false)` and
changes nothing (neither the filesystem nor the reloader) when no change
is pending; when a change is pending it clears the pending flag, runs
`reload()`, propagates any `reload()` error unchanged, and returns
`Ok(true)` when `reload()` succeeds. -/
theorem update_spec (pfx ext : String) (pid : Nat) (fs : FS) (r : LibReloader) :
    (r.changed = false → LibReloader.update pfx ext pid fs r = (fs, r, .ok false)) ∧
    (r.changed = true →
      ∀ fs1 r1 oe,
        LibReloader.reload pfx ext pid fs { r with changed := false } = (fs1, r1, oe) →
        r1.changed = false ∧
        LibReloader.update pfx ext pid fs r =
          (fs1, r1, match oe with | some e => .error e | none => .ok true)) := by
  constructor
  · intro h
    unfold LibReloader.update
    rw [h]
    rfl
  · intro h fs1 r1 oe hre
    have hc : r1.changed = false := by
      have h2 := reload_changed pfx ext pid fs { r with changed := false }
      rw [hre] at h2
      simpa using h2
    refine ⟨hc, ?_⟩
    unfold LibReloader.update
    rw [h]
    simp only [Bool.not_true, Bool.false_eq_true, if_false]
    rw [hre]
    cases oe <;> rfl

/-- Witness for C1: a no-op update over an absent artifact, and an update
whose reload fails (unloadable artifact) propagating the load error. -/
theorem update_spec_witness :
    LibReloader.update "lib" "so" 7 [] r0 = ([], r0, .ok false) ∧
    LibReloader.update "lib" "so" 7 fsBad r0c =
      (FS.write fsBad "target/debug/libfoo-hot-1.so" badLib,
       { r0 with load_counter := 1, lib_file_hash := crc32 [9] },
       .error .loadError) :=
  ⟨(update_spec "lib" "so" 7 [] r0).1 rfl,
   ((update_spec "lib" "so" 7 fsBad r0c).2 rfl
      (FS.write fsBad "target/debug/libfoo-hot-1.so" badLib)
      { r0 with load_counter := 1, lib_file_hash := crc32 [9] }
      (some .loadError) rfl).2⟩

/-- C2: The about-to-reload broadcast seeds the shared pending count at 1
(the broadcaster's own hold); every token clone increments the count and
every drop decrements it; after one clone per subscriber delivery plus the
release of the broadcaster's own seed hold the count equals the number of
outstanding tokens `n`; the `wait_while` condition lets the call return
exactly when the count is 0, and along every valid operation sequence the
count equals the number of live tokens. -/
theorem block_reload_pending_count :
    (∀ (ops : List TokOp) (s1 : TokState),
        runTokOps seedTokState ops = some s1 → s1.count = s1.live) ∧
    (∀ n : Nat, runTokOps seedTokState (broadcastOps n) = some ⟨n, n⟩) ∧
    (∀ (ops : List TokOp) (s1 : TokState),
        runTokOps seedTokState ops = some s1 →
        (waitReturns s1 ↔ s1.live = 0)) := by
  refine ⟨?_, ?_, ?_⟩
  · intro ops s1 he
    exact tok_invariant ops seedTokState s1 rfl he
  · intro n
    unfold broadcastOps seedTokState
    have ha : ∀ (cl : List TokOp) (s : TokState),
        runTokOps s (cl ++ [TokOp.drop]) =
          match runTokOps s cl with
          | none => none
          | some s1 => runTokOps s1 [TokOp.drop] := by
      intro cl
      induction cl with
      | nil => intro s; simp [runTokOps]
      | cons op ops ih =>
        intro s
        simp only [List.cons_append, runTokOps]
        cases htok : tokStep s op with
        | none => rfl
        | some s2 => exact ih s2
    rw [ha, replicate_clones n 1 1 (by omega)]
    simp only [runTokOps, tokStep, if_neg (by omega : ¬ 1 + n = 0)]
    simp only [Option.some.injEq, TokState.mk.injEq]
    omega
  · intro ops s1 he
    have h := tok_invariant ops seedTokState s1 rfl he
    unfold waitReturns
    omega

/-- Witness for C2: one drop of the seed token reaches the state (0, 0);
a broadcast to two subscribers leaves count 2 with 2 live tokens. -/
theorem block_reload_pending_count_witness :
    ((⟨0, 0⟩ : TokState).count = (⟨0, 0⟩ : TokState).live) ∧
    runTokOps seedTokState (broadcastOps 2) = some ⟨2, 2⟩ ∧
    (waitReturns ⟨0, 0⟩ ↔ ((⟨0, 0⟩ : TokState).live = 0)) :=
  ⟨block_reload_pending_count.1 [TokOp.drop] ⟨0, 0⟩ (by decide),
   block_reload_pending_count.2.1 2,
   block_reload_pending_count.2.2 [TokOp.drop] ⟨0, 0⟩ (by decide)⟩

/-- C3: For every filesystem event batch the change gate recomputes the
fingerprint of the watched file's current bytes and emits no change
signal when it equals the stored fingerprint or a change is already
pending (so re-signaling unchanged content yields zero signals); only an
accepted change sets the pending flag and sends exactly one unit signal
to each file-change subscriber. -/
theorem signal_change_gate (fs : FS) (lib_file : String) (stored : Nat)
    (changed : Bool) (subs : List (List Unit)) :
    (hash_file fs lib_file = stored ∨ changed = true →
        signal_change fs lib_file stored changed subs = (false, changed, subs)) ∧
    (hash_file fs lib_file ≠ stored → changed = false →
        signal_change fs lib_file stored changed subs =
          (true, true, subs.map (fun q => q ++ [()])) ∧
        (subs.map (fun q => q ++ [()])).length = subs.length ∧
        ∀ i (hi : i < subs.length),
          (subs.map (fun q => q ++ [()])).get ⟨i, by simpa using hi⟩ =
            subs.get ⟨i, hi⟩ ++ [()]) := by
  constructor
  · intro h
    unfold signal_change
    rcases h with h | h
    · rw [if_pos (Or.inl h)]
    · rw [if_pos (Or.inr h)]
  · intro hne hc
    subst hc
    unfold signal_change
    rw [if_neg (by simpa using hne)]
    refine ⟨rfl, List.length_map _ _, ?_⟩
    intro i hi
    simp [List.getElem_map]

/-- Witness for C3: with stored fingerprint 0 an absent file is
suppressed (hash recomputes to 0); a present file with different bytes is
accepted and each of the two subscriber queues grows by exactly one unit
signal. -/
theorem signal_change_gate_witness :
    signal_change [] "p" 0 false [[], [()]] = (false, false, [[], [()]]) ∧
    signal_change [("p", ⟨[1], none⟩)] "p" 0 false [[], [()]] =
      (true, true, [[()], [(), ()]]) :=
  ⟨(signal_change_gate [] "p" 0 false [[], [()]]).1 (Or.inl rfl),
   ((signal_change_gate [("p", ⟨[1], none⟩)] "p" 0 false [[], [()]]).2
      (by decide) rfl).1⟩

/-- C4: In the generated update-thread loop the version counter is
incremented and the update flag set exactly once per successful cycle
(after `n` successful cycles the version equals its initial value plus
`n`); the take-read of the update flag returns true once and false on an
immediate repeat read; the reloaded event is sent only after the version
and flag updates; and a cycle whose `update()` errors panics the thread
before any increment. -/
theorem version_counter_update_flag (pfx ext : String) (pid : Nat) :
    (∀ (n : Nat) (fs : FS) (ms : HotModuleState) (r : LibReloader)
        (fs1 : FS) (ms1 : HotModuleState) (r1 : LibReloader),
        runCycles pfx ext pid n fs ms r = some (fs1, ms1, r1) →
        ms1.version = ms.version + n ∧ (n ≠ 0 → ms1.was_updated = true)) ∧
    (∀ (fs : FS) (ms : HotModuleState) (r : LibReloader)
        (out : FS × LibReloader × HotModuleState × List CycleEvent),
        updateLoopCycle pfx ext pid fs ms r = some out →
        out.2.2.1 = ⟨ms.version + 1, true⟩ ∧
        (lib_was_updated out.2.2.1).1 = true ∧
        (lib_was_updated (lib_was_updated out.2.2.1).2).1 = false ∧
        out.2.2.2.indexOf CycleEvent.versionIncremented <
          out.2.2.2.indexOf CycleEvent.reloadedSent ∧
        out.2.2.2.indexOf CycleEvent.updateFlagSet <
          out.2.2.2.indexOf CycleEvent.reloadedSent) ∧
    (∀ (fs : FS) (ms : HotModuleState) (r : LibReloader) (e : HotReloaderError),
        (LibReloader.update pfx ext pid fs r).2.2 = .error e →
        updateLoopCycle pfx ext pid fs ms r = none) := by
  have hcycle : ∀ (fs : FS) (ms : HotModuleState) (r : LibReloader)
      (out : FS × LibReloader × HotModuleState × List CycleEvent),
      updateLoopCycle pfx ext pid fs ms r = some out →
      out.2.2.1 = ⟨ms.version + 1, true⟩ ∧
      out.2.2.2 = [CycleEvent.aboutToReloadWait, CycleEvent.versionIncremented,
        CycleEvent.updateFlagSet, CycleEvent.reloadedSent] := by
    intro fs ms r out h
    unfold updateLoopCycle at h
    rcases hup : LibReloader.update pfx ext pid fs r with ⟨a, b, res⟩
    rw [hup] at h
    cases res <;>
      simp only [reduceCtorEq, Option.some.injEq] at h
    subst h
    exact ⟨rfl, rfl⟩
  refine ⟨?_, ?_, ?_⟩
  · intro n
    induction n with
    | zero =>
      intro fs ms r fs1 ms1 r1 h
      simp only [runCycles] at h
      cases h
      simp
    | succ n ih =>
      intro fs ms r fs1 ms1 r1 h
      simp only [runCycles] at h
      rcases hcy : updateLoopCycle pfx ext pid fs ms { r with changed := true }
        with _ | ⟨fs2, r2, ms2, ev⟩
      · rw [hcy] at h; simp at h
      · rw [hcy] at h
        simp only [] at h
        have hms2 : ms2 = ⟨ms.version + 1, true⟩ :=
          (hcycle fs ms { r with changed := true } (fs2, r2, ms2, ev) hcy).1
        obtain ⟨hv, hw⟩ := ih fs2 ms2 r2 fs1 ms1 r1 h
        constructor
        · rw [hv, hms2]
          dsimp only
          omega
        · intro _
          rcases hn : n with _ | m
          · subst hn
            simp only [runCycles] at h
            cases h
            rw [hms2]
          · exact hw (by omega)
  · intro fs ms r out h
    obtain ⟨hm, hev⟩ := hcycle fs ms r out h
    rw [hm, hev]
    refine ⟨rfl, rfl, rfl, by decide, by decide⟩
  · intro fs ms r e h
    unfold updateLoopCycle
    rcases hup : LibReloader.update pfx ext pid fs r with ⟨a, b, res⟩
    rw [hup] at h
    dsimp only at h
    subst h
    rfl

/-- Witness for C4: two successful cycles take the version from 0 to 2
with the flag set, and a cycle over an unloadable artifact dies without
incrementing. -/
theorem version_counter_update_flag_witness :
    ((⟨2, true⟩ : HotModuleState).version =
        (⟨0, false⟩ : HotModuleState).version + 2 ∧
      (2 ≠ 0 → (⟨2, true⟩ : HotModuleState).was_updated = true)) ∧
    updateLoopCycle "lib" "so" 7 fsBad ⟨0, false⟩ r0c = none :=
  ⟨(version_counter_update_flag "lib" "so" 7).1 2 [] ⟨0, false⟩ r0 []
      ⟨2, true⟩ r0 (by decide),
   (version_counter_update_flag "lib" "so" 7).2.2 fsBad ⟨0, false⟩ r0c
      .loadError rfl⟩

/-- C5: `get_symbol` returns `Err(LibraryNotLoaded)` whenever no handle is
held — after construction over an absent artifact and after a failed
reload that closed the old handle — and the error persists until a
successful reload: an update can only end with a handle if it reloaded
successfully or a handle was already held; when a handle is held the
lookup is delegated to it. -/
theorem get_symbol_requires_handle (pfx ext : String) (pid : Nat) :
    (∀ (r : LibReloader) (name : List Nat), r.lib = none →
        LibReloader.get_symbol r name = .error .libraryNotLoaded) ∧
    (∀ (r : LibReloader) (name : List Nat) (syms : List (List Nat)),
        r.lib = some syms → LibReloader.get_symbol r name = libGet syms name) ∧
    (∀ (fs : FS) (lib_dir lib_name : String) (tmpl : Option String),
        fs.pathExists (watched_and_loaded_library_paths pfx ext lib_dir
          lib_name 0 tmpl pid).1 = false →
        ∃ r, LibReloader.new pfx ext pid fs lib_dir lib_name tmpl = .ok (fs, r) ∧
          r.lib = none) ∧
    (∀ (fs : FS) (r : LibReloader) fs1 r1 e,
        LibReloader.reload pfx ext pid fs r = (fs1, r1, some e) → r1.lib = none) ∧
    (∀ (fs : FS) (r : LibReloader) fs1 r1 res,
        LibReloader.update pfx ext pid fs r = (fs1, r1, res) →
        r1.lib.isSome = true →
        res = .ok true ∨ (res = .ok false ∧ r.lib.isSome = true)) := by
  refine ⟨?_, ?_, ?_, ?_, ?_⟩
  · intro r name h
    unfold LibReloader.get_symbol
    rw [h]
  · intro r name syms h
    unfold LibReloader.get_symbol
    rw [h]
  · intro fs lib_dir lib_name tmpl h
    unfold LibReloader.new
    dsimp only
    rcases hp : watched_and_loaded_library_paths pfx ext lib_dir lib_name 0 tmpl pid
      with ⟨w, l⟩
    rw [hp] at h
    rw [if_neg (by simpa using h)]
    exact ⟨_, rfl, rfl⟩
  · intro fs r fs1 r1 e hre
    exact reload_error_no_lib pfx ext pid fs r fs1 r1 e hre
  · intro fs r fs1 r1 res h hsome
    rcases hc : r.changed
    · unfold LibReloader.update at h
      rw [hc] at h
      simp only [Bool.not_false, if_true, Prod.mk.injEq] at h
      obtain ⟨ha, hb, hres⟩ := h
      right
      subst hb
      exact ⟨hres.symm, hsome⟩
    · unfold LibReloader.update at h
      rw [hc] at h
      simp only [Bool.not_true, Bool.false_eq_true, if_false] at h
      rcases hre : LibReloader.reload pfx ext pid fs { r with changed := false }
        with ⟨a, b, oe⟩
      rw [hre] at h
      cases oe
      · simp only [Prod.mk.injEq] at h
        left
        exact h.2.2.symm
      · simp only [Prod.mk.injEq] at h
        obtain ⟨ha, hb, hres⟩ := h
        have hnone : r1.lib = none := by
          rw [← hb]
          exact reload_error_no_lib pfx ext pid fs _ a b _ hre
        rw [hnone] at hsome
        simp at hsome

/-- Witness for C5: lookup on the fresh absent-artifact reloader fails
with `LibraryNotLoaded`; construction over the empty filesystem holds no
handle; the reloader left by a failed load holds no handle; a no-op
update keeps an already-held handle. -/
theorem get_symbol_requires_handle_witness :
    LibReloader.get_symbol r0 [100] = .error .libraryNotLoaded ∧
    (∃ r, LibReloader.new "lib" "so" 7 [] "target/debug" "foo" none =
        .ok ([], r) ∧ r.lib = none) ∧
    ({ r0 with load_counter := 1, lib_file_hash := crc32 [9] } : LibReloader).lib
      = none ∧
    ((Except.ok false : Except HotReloaderError Bool) = .ok true ∨
      ((.ok false : Except HotReloaderError Bool) = .ok false ∧
        rLib.lib.isSome = true)) :=
  ⟨(get_symbol_requires_handle "lib" "so" 7).1 r0 [100] rfl,
   (get_symbol_requires_handle "lib" "so" 7).2.2.1 [] "target/debug" "foo"
      none (by decide),
   (get_symbol_requires_handle "lib" "so" 7).2.2.2.1 fsBad r0
      (FS.write fsBad "target/debug/libfoo-hot-1.so" badLib)
      { r0 with load_counter := 1, lib_file_hash := crc32 [9] }
      .loadError rfl,
   (get_symbol_requires_handle "lib" "so" 7).2.2.2.2 [] rLib [] rLib
      (.ok false) rfl rfl⟩

/-- C6: When `reload()` runs and the watched artifact path does not
exist, it first closes any open handle and best-effort deletes that
handle's backing file, then returns `Ok(())` — the cycle is skipped —
leaving no loaded handle and leaving the load counter, the stored
fingerprint, and the loaded path unchanged. -/
theorem reload_skips_missing_artifact (pfx ext : String) (pid : Nat)
    (fs : FS) (r : LibReloader)
    (h : fs.pathExists r.watched_lib_file = false) :
    LibReloader.reload pfx ext pid fs r =
      (if r.lib.isSome && fs.pathExists r.loaded_lib_file then
          fs.removeFile r.loaded_lib_file
        else fs,
       { r with lib := none }, none) := by
  unfold LibReloader.reload
  rcases hl : r.lib with _ | syms <;> dsimp only
  · rw [h]
    simp only [Bool.false_eq_true, if_false, hl, Option.isSome_none, Bool.false_and]
    rw [LibReloader.withLibNone_eq r hl]
  · rcases hex : fs.pathExists r.loaded_lib_file <;>
      simp only [Bool.false_eq_true, if_false, if_true]
    · rw [h]
      simp [hl, hex]
    · rw [pathExists_removeFile_false fs _ _ h]
      simp [hl, hex]

/-- Witness for C6: the watched artifact is absent while a handle is open
over an existing private copy; the reload closes the handle, deletes the
copy, and returns without error. -/
theorem reload_skips_missing_artifact_witness :
    LibReloader.reload "lib" "so" 7 fsLoadedOnly rLib =
      (if rLib.lib.isSome && fsLoadedOnly.pathExists rLib.loaded_lib_file then
          fsLoadedOnly.removeFile rLib.loaded_lib_file
        else fsLoadedOnly,
       { rLib with lib := none }, none) :=
  reload_skips_missing_artifact "lib" "so" 7 fsLoadedOnly rLib (by decide)

/-- C7 counterexample: with the linux prefix the template
`{lib_name}-{load_counter}-{pid}` at counter 3, pid 1234, lib name `foo`
yields the loaded file `libfoo-3-1234.so`, not `foo-3-1234.so` as the
claim's example states: the source substitutes the platform-prefixed
library name for the placeholder. -/
theorem template_substitution_counterexample :
    (watched_and_loaded_library_paths "lib" "so" "target/debug" "foo" 3
        (some "{lib_name}-{load_counter}-{pid}") 1234).2 =
      "target/debug/libfoo-3-1234.so" ∧
    (watched_and_loaded_library_paths "lib" "so" "target/debug" "foo" 3
        (some "{lib_name}-{load_counter}-{pid}") 1234).2 ≠
      "target/debug/foo-3-1234.so" := by
  decide

/-- C7 amended: the `{lib_name}` placeholder is substituted with the
platform-prefixed library file name (prefix ++ lib_name), so the example
template yields `libfoo-3-1234` plus extension on linux and
`foo-3-1234` plus extension on windows (empty prefix); without a template
the default is the prefixed name plus `-hot-` plus the counter, and the
platform extension is always applied. -/
theorem template_substitution_amended :
    (watched_and_loaded_library_paths "lib" "so" "target/debug" "foo" 3
        (some "{lib_name}-{load_counter}-{pid}") 1234).2 =
      "target/debug/libfoo-3-1234.so" ∧
    (watched_and_loaded_library_paths "" "dll" "target/debug" "foo" 3
        (some "{lib_name}-{load_counter}-{pid}") 1234).2 =
      "target/debug/foo-3-1234.dll" ∧
    (watched_and_loaded_library_paths "lib" "so" "target/debug" "foo" 7
        none 99).2 = "target/debug/libfoo-hot-7.so" ∧
    (watched_and_loaded_library_paths "lib" "so" "target/debug" "foo" 3
        (some "{lib_name}-{load_counter}-{pid}") 1234).1 =
      "target/debug/libfoo.so" := by
  decide

/-- C8 counterexample: at teardown with an open handle and an existing
loaded copy, the drop glue removes the loaded-copy file first (in the
`Drop::drop` body) and closes the handle only afterwards (when the `lib`
field is dropped), so the handle is not closed before the deletion as the
claim states. -/
theorem teardown_order_counterexample :
    rLib.lib.isSome = true ∧
    fsLoadedOnly.pathExists rLib.loaded_lib_file = true ∧
    dropReloader fsLoadedOnly rLib =
      [TeardownEvent.removeLoadedFile, TeardownEvent.closeHandle] ∧
    ¬ (dropReloader fsLoadedOnly rLib).indexOf TeardownEvent.closeHandle <
        (dropReloader fsLoadedOnly rLib).indexOf TeardownEvent.removeLoadedFile := by
  decide

/-- C8 amended: at teardown of the `LibReloader`, the current loaded-copy
file is deleted from disk first (in the `Drop::drop` body), and the open
library handle is closed afterwards, when the struct fields are dropped. -/
theorem teardown_removes_file_then_closes (fs : FS) (r : LibReloader)
    (h1 : r.lib.isSome = true) (h2 : fs.pathExists r.loaded_lib_file = true) :
    dropReloader fs r =
      [TeardownEvent.removeLoadedFile, TeardownEvent.closeHandle] := by
  unfold dropReloader
  rw [h2]
  rcases hl : r.lib with _ | syms
  · rw [hl] at h1
    simp at h1
  · rfl

/-- Witness for the C8 amended theorem at a concrete open handle and
existing loaded copy. -/
theorem teardown_removes_file_then_closes_witness :
    dropReloader fsLoadedOnly rLib =
      [TeardownEvent.removeLoadedFile, TeardownEvent.closeHandle] :=
  teardown_removes_file_then_closes fsLoadedOnly rLib (by decide) (by decide)

/-- C9: `update()` clears the pending-change flag before invoking
`reload()`, so when the reload fails the pending change is already
consumed and an immediately subsequent `update()` is a no-op returning
`Ok(false)` — the failed cycle is not retried. -/
theorem update_failed_cycle_not_retried (pfx ext : String) (pid : Nat)
    (fs : FS) (r : LibReloader) (fs1 : FS) (r1 : LibReloader)
    (e : HotReloaderError)
    (h : LibReloader.update pfx ext pid fs r = (fs1, r1, .error e)) :
    r1.changed = false ∧
    LibReloader.update pfx ext pid fs1 r1 = (fs1, r1, .ok false) := by
  rcases hc : r.changed
  · unfold LibReloader.update at h
    rw [hc] at h
    simp at h
  · unfold LibReloader.update at h
    rw [hc] at h
    simp only [Bool.not_true, Bool.false_eq_true, if_false] at h
    have h2 := reload_changed pfx ext pid fs { r with changed := false }
    rcases hre : LibReloader.reload pfx ext pid fs { r with changed := false }
      with ⟨a, b, oe⟩
    rw [hre] at h h2
    cases oe
    · simp at h
    · simp only [Prod.mk.injEq, Except.error.injEq] at h
      obtain ⟨ha, hb, hee⟩ := h
      subst ha
      subst hb
      have hcb : b.changed = false := by simpa using h2
      refine ⟨hcb, ?_⟩
      unfold LibReloader.update
      rw [hcb]
      rfl

/-- Witness for C9: after the failed reload over the unloadable artifact,
the pending flag is clear and the immediate retry is a no-op. -/
theorem update_failed_cycle_not_retried_witness :
    ({ r0 with load_counter := 1, lib_file_hash := crc32 [9] } :
        LibReloader).changed = false ∧
    LibReloader.update "lib" "so" 7
        (FS.write fsBad "target/debug/libfoo-hot-1.so" badLib)
        { r0 with load_counter := 1, lib_file_hash := crc32 [9] } =
      (FS.write fsBad "target/debug/libfoo-hot-1.so" badLib,
       { r0 with load_counter := 1, lib_file_hash := crc32 [9] }, .ok false) :=
  update_failed_cycle_not_retried "lib" "so" 7 fsBad r0c
    (FS.write fsBad "target/debug/libfoo-hot-1.so" badLib)
    { r0 with load_counter := 1, lib_file_hash := crc32 [9] }
    .loadError rfl

/-- C10: `hash_file` returns the default value 0 for every unreadable
path; construction over an absent artifact stores fingerprint 0 and no
handle; consequently a later artifact whose contents hash to exactly 0
(for example empty contents) is suppressed by the change gate as a
duplicate and never signaled. -/
theorem hash_file_default_and_gate (pfx ext : String) (pid : Nat) :
    (∀ (fs : FS) (p : String), fs.read p = none → hash_file fs p = 0) ∧
    (∀ (fs : FS) (lib_dir lib_name : String) (tmpl : Option String),
        fs.pathExists (watched_and_loaded_library_paths pfx ext lib_dir
          lib_name 0 tmpl pid).1 = false →
        ∃ r, LibReloader.new pfx ext pid fs lib_dir lib_name tmpl = .ok (fs, r) ∧
          r.lib_file_hash = 0 ∧ r.lib = none) ∧
    (∀ (fs : FS) (p : String) (d : FileData) (subs : List (List Unit)),
        fs.read p = some d → crc32 d.bytes = 0 →
        signal_change fs p 0 false subs = (false, false, subs)) := by
  refine ⟨?_, ?_, ?_⟩
  · intro fs p h
    unfold hash_file
    rw [h]
  · intro fs lib_dir lib_name tmpl h
    unfold LibReloader.new
    dsimp only
    rcases hp : watched_and_loaded_library_paths pfx ext lib_dir lib_name 0 tmpl pid
      with ⟨w, l⟩
    rw [hp] at h
    rw [if_neg (by simpa using h)]
    exact ⟨_, rfl, rfl, rfl⟩
  · intro fs p d subs hread hcrc
    unfold signal_change hash_file
    rw [hread]
    dsimp only
    rw [hcrc]
    simp

/-- Witness for C10: the empty filesystem hashes any path to 0;
construction over it stores fingerprint 0; an artifact later created with
empty contents (CRC32 0) is suppressed with zero signals. -/
theorem hash_file_default_and_gate_witness :
    hash_file [] "x" = 0 ∧
    (∃ r, LibReloader.new "lib" "so" 9 [] "target/debug" "foo" none =
        .ok ([], r) ∧ r.lib_file_hash = 0 ∧ r.lib = none) ∧
    signal_change [("target/debug/libfoo.so", ⟨[], none⟩)]
        "target/debug/libfoo.so" 0 false [[]] = (false, false, [[]]) :=
  ⟨(hash_file_default_and_gate "lib" "so" 9).1 [] "x" rfl,
   (hash_file_default_and_gate "lib" "so" 9).2.1 [] "target/debug" "foo" none
      (by decide),
   (hash_file_default_and_gate "lib" "so" 9).2.2
      [("target/debug/libfoo.so", ⟨[], none⟩)] "target/debug/libfoo.so"
      ⟨[], none⟩ [[]] rfl (by decide)⟩
